import Mathlib

/-!
Verification of the two-stage training controller of the
MedicalImageProgression repository (src/main_aux.py and the network files
under src/nn/), as a shallow embedding: the stage logic, the
gradient-accumulation schedule, the stage-dependent loss composition, the
freeze/step event protocol of the per-sample loop, the checkpoint selector,
the data-contract assertions, the configuration error paths, and the
auxiliary network's broken `forward` method.
-/

namespace MedImgProg

/-! ## Python exceptions relevant to the embedded code paths -/

inductive PyExc
  | assertionError
  | nameError (name : String)
  | valueError (msg : String)
deriving DecidableEq, Repr

/-! ## Training stage (main_aux.py line 104)

`running_stage1 = epoch_idx < config.epochs_stage1`, recomputed at the top of
every epoch from the loop index alone. -/

def running_stage1 (epoch_idx epochs_stage1 : Nat) : Bool :=
  decide (epoch_idx < epochs_stage1)

inductive TrainingStage
  | STAGE_1
  | STAGE_2
deriving DecidableEq, Repr

def stageOf (epoch_idx epochs_stage1 : Nat) : TrainingStage :=
  if running_stage1 epoch_idx epochs_stage1 then .STAGE_1 else .STAGE_2

/-! ## Gradient accumulation for the main optimizer (main_aux.py lines 156-190)

Per sample, `loss_recon / backprop_freq` and then `loss_pred / backprop_freq`
are backpropagated (gradients accumulate in the optimizer's buffers), and only
when `iter_idx % backprop_freq == backprop_freq - 1` does `optimizer.step()`
run, followed by `optimizer.zero_grad()`.  Parameters and the accumulated
gradient are one abstract `Int` each; the optimizer update rule `upd` is an
arbitrary function of (params, accumulated grad), and `gRecon`/`gPred` give
the per-sample gradient contributions of the two backward calls. -/

structure MainOptState where
  params : Int
  grad : Int
  stepIdx : List Nat
deriving DecidableEq, Repr

def trainIterMain (freq : Nat) (upd : Int → Int → Int) (gRecon gPred : Nat → Int)
    (st : MainOptState) (i : Nat) : MainOptState :=
  let st1 : MainOptState := { st with grad := st.grad + gRecon i }
  let st2 : MainOptState := { st1 with grad := st1.grad + gPred i }
  if i % freq = freq - 1 then
    { params := upd st2.params st2.grad, grad := 0, stepIdx := st2.stepIdx ++ [i] }
  else
    st2

def runMainOpt (freq : Nat) (upd : Int → Int → Int) (gRecon gPred : Nat → Int) :
    Nat → MainOptState
  | 0 => { params := 0, grad := 0, stepIdx := [] }
  | n + 1 => trainIterMain freq upd gRecon gPred (runMainOpt freq upd gRecon gPred n) n

/-! ## Per-sample event protocol of the training loop (main_aux.py lines 140-234)

The ordered sequence of freeze/backward/step events one training sample
produces, as a function of the current stage (`running_stage1`), of whether a
visualization is due (`iter_idx % plot_freq == 0`), and of whether the sample
index is a gradient-accumulation boundary. -/

inductive Ev
  | auxFreeze
  | auxUnfreeze
  | mainUnfreeze
  | tryFreezeNonOdeEv
  | backwardRecon
  | backwardPred
  | mainOptStep
  | mainZeroGrad
  | auxForwardPass
  | backwardAux
  | auxOptStep
  | auxZeroGrad
  | schedStepMain
  | schedStepAux
deriving DecidableEq, Repr

def sampleEvents (stage1 shallPlot atBoundary : Bool) : List Ev :=
  [.auxFreeze,                                         -- model_aux.freeze()           (line 142)
   .mainUnfreeze,                                      -- model.unfreeze()             (line 145)
   .backwardRecon,                                     -- (loss_recon/freq).backward() (line 161)
   .tryFreezeNonOdeEv,                                 -- try model.freeze_non_ode()   (lines 165-168)
   .backwardPred,                                      -- (loss_pred/freq).backward()  (line 183)
   .mainUnfreeze]                                      -- model.unfreeze()             (line 185)
  ++ (if atBoundary then [.mainOptStep, .mainZeroGrad] else [])       -- lines 188-190
  ++ (if stage1 then [.auxUnfreeze] else [])                          -- lines 193-194
  ++ (if stage1 || shallPlot then [.auxForwardPass] else [])          -- lines 196-225
  ++ (if stage1 then
        [.backwardAux] ++ (if atBoundary then [.auxOptStep, .auxZeroGrad] else [])
      else [])                                                        -- lines 227-234

/-- Freeze state of the auxiliary network after a list of events, given its
state before them (`model_aux.freeze()` sets it, `model_aux.unfreeze()`
clears it; every other event leaves it alone). -/
def auxFrozen (es : List Ev) (init : Bool) : Bool :=
  es.foldl (fun s e =>
    match e with
    | .auxFreeze => true
    | .auxUnfreeze => false
    | _ => s) init

/-- One full training epoch's events: the per-sample protocol for each of
`numSamples` samples, then one step of each learning-rate scheduler
(main_aux.py lines 267-268). -/
def epochEvents (stage1 : Bool) (numSamples plotFreq freq : Nat) : List Ev :=
  (List.range numSamples).flatMap
      (fun i => sampleEvents stage1 (decide (i % plotFreq = 0)) (decide (i % freq = freq - 1)))
    ++ [.schedStepMain, .schedStepAux]

/-! ## Stage-dependent prediction loss (main_aux.py lines 170-183)

In STAGE_1 `loss_pred = (mse(x_start, x_start_pred) + mse(x_end, x_end_pred)).mean()`
(the mean of a scalar is itself); in STAGE_2
`loss_pred = (1 - sim_x0) + (1 - sim_xT)` where `sim_x0`/`sim_xT` are cosine
similarities of auxiliary-projection embeddings.  The MSE values and cosine
similarities enter as rationals. -/

def loss_pred (stage1 : Bool) (mse_x0_pred mse_xT_pred sim_x0 sim_xT : ℚ) : ℚ :=
  if stage1 then mse_x0_pred + mse_xT_pred
  else (1 - sim_x0) + (1 - sim_xT)

/-- Symbolic names for the image tensors of one sample, distinguishing the
backbone's live predictions from their `.detach()`ed copies (lines 153-154). -/
inductive ImgRef
  | xStart
  | xEnd
  | xStartPred
  | xEndPred
  | xStartPredDetach
  | xEndPredDetach
  | posA
  | posB
  | neg1A
  | neg1B
  | neg2A
  | neg2B
deriving DecidableEq, Repr

def isDetachedRef : ImgRef → Bool
  | .xStartPredDetach | .xEndPredDetach => true
  | _ => false

def isBackbonePred : ImgRef → Bool
  | .xStartPred | .xEndPred => true
  | _ => false

/-- The (true image, predicted image) pairs scored by the auxiliary projection
in the STAGE_2 prediction loss (lines 173-174): the live predictions, not the
detached copies. -/
def stage2PredPairs : List (ImgRef × ImgRef) :=
  [(.xStart, .xStartPred), (.xEnd, .xEndPred)]

/-- The pairs feeding `sim_x0`/`sim_xT` of the auxiliary loss (lines 197-198):
each true image with its detached prediction. -/
def simSynPairs : List (ImgRef × ImgRef) :=
  [(.xStart, .xStartPredDetach), (.xEnd, .xEndPredDetach)]

/-- Where the gradient of an auxiliary-projection similarity score flows:
into the auxiliary parameters only if they require grad (the network is not
frozen), and into the scored input image only if that input is not detached. -/
structure ScorerGrad where
  touchesAuxParams : Bool
  reachesInputImage : Bool
deriving DecidableEq, Repr

def auxScoreGrad (auxRequiresGrad : Bool) (inputDetached : Bool) : ScorerGrad :=
  { touchesAuxParams := auxRequiresGrad, reachesInputImage := !inputDetached }

/-! ## Auxiliary triplet loss (main_aux.py lines 203-219) -/

def reluQ (x : ℚ) : ℚ := max x 0

def cos_dist_pos (sim_pos : ℚ) : ℚ := 1 - sim_pos

def cos_dist_neg (sim_neg1 sim_neg2 : ℚ) : ℚ := 1/2 * (1 - sim_neg1 + (1 - sim_neg2))

def cos_dist_syn (sim_x0 sim_xT : ℚ) : ℚ := 1/2 * (1 - sim_x0 + (1 - sim_xT))

def margin : ℚ := 1.0

def loss_aux_neg (sim_pos sim_neg1 sim_neg2 : ℚ) : ℚ :=
  reluQ (cos_dist_pos sim_pos - cos_dist_neg sim_neg1 sim_neg2 + margin)

def loss_aux_syn (sim_pos sim_x0 sim_xT : ℚ) : ℚ :=
  reluQ (cos_dist_pos sim_pos - cos_dist_syn sim_x0 sim_xT + margin)

def loss_aux (sim_pos sim_neg1 sim_neg2 sim_x0 sim_xT : ℚ) : ℚ :=
  loss_aux_neg sim_pos sim_neg1 sim_neg2 + loss_aux_syn sim_pos sim_x0 sim_xT

/-! ## Best-checkpoint selector (main_aux.py lines 73, 362-370)

`best_val_loss` starts at `np.inf` (modelled as `none`); at the end of each
epoch, only when `running_stage1` is false and `val_loss < best_val_loss`,
the best value is overwritten and both networks' weights are saved. -/

structure CkptState where
  best_val_loss : Option ℚ
  savedEpochs : List Nat
deriving DecidableEq, Repr

def ltBest (v : ℚ) : Option ℚ → Bool
  | none => true
  | some b => decide (v < b)

def bestLe : Option ℚ → Option ℚ → Prop
  | _, none => True
  | none, some _ => False
  | some a, some b => a ≤ b

def epochSelect (epochs_stage1 : Nat) (valLoss : Nat → ℚ) (st : CkptState) (e : Nat) :
    CkptState :=
  if running_stage1 e epochs_stage1 then st
  else if ltBest (valLoss e) st.best_val_loss then
    { best_val_loss := some (valLoss e), savedEpochs := st.savedEpochs ++ [e] }
  else st

def runSelect (epochs_stage1 : Nat) (valLoss : Nat → ℚ) : Nat → CkptState
  | 0 => { best_val_loss := none, savedEpochs := [] }
  | n + 1 => epochSelect epochs_stage1 valLoss (runSelect epochs_stage1 valLoss n) n

/-! ## Data-contract assertions of the training loop (main_aux.py lines 131-135, 149)

Five shape assertions on dimension 1 of the batch tensors, and
`assert torch.diff(t_list).item() > 0` with `t_list = [t_start, t_end]`,
so `torch.diff(t_list) = t_end - t_start`.  A failed `assert` raises
`AssertionError`, aborting the run. -/

structure RawSample where
  imagesDim1 : Nat
  timestampsDim1 : Nat
  posPairDim1 : Nat
  negPair1Dim1 : Nat
  negPair2Dim1 : Nat
  t_start : ℚ
  t_end : ℚ
deriving DecidableEq, Repr

def trainSampleAsserts (s : RawSample) : Except PyExc Unit :=
  if s.imagesDim1 = 2 then
    if s.timestampsDim1 = 2 then
      if s.posPairDim1 = 2 then
        if s.negPair1Dim1 = 2 then
          if s.negPair2Dim1 = 2 then
            if 0 < s.t_end - s.t_start then Except.ok ()
            else Except.error .assertionError
          else Except.error .assertionError
        else Except.error .assertionError
      else Except.error .assertionError
    else Except.error .assertionError
  else Except.error .assertionError

/-! ## Selective backbone freezing (main_aux.py lines 165-168;
src/nn/unet_ode_static.py lines 79-90)

`StaticODEUNet.freeze_time_independent` sets `requires_grad = False` on every
parameter outside the ODE module list.  `model.freeze_non_ode()` (defined on
backbone variants outside src/) is wrapped in `try/except AttributeError`: a
variant lacking the method only prints a message and training continues. -/

structure BackboneParam where
  isODE : Bool
  requires_grad : Bool
deriving DecidableEq, Repr

def freeze_time_independent (ps : List BackboneParam) : List BackboneParam :=
  ps.map (fun p => if p.isODE then p else { p with requires_grad := false })

/-- Modelled from the spec: `freeze_non_ode` is defined on backbone variants
whose files are not under src/; per the spec it stops gradient flow to all
parameters except the continuous-time integration module, exactly the effect
of `StaticODEUNet.freeze_time_independent` above. -/
def freeze_non_ode (ps : List BackboneParam) : List BackboneParam :=
  freeze_time_independent ps

structure BackboneModel where
  hasFreezeNonOde : Bool
  params : List BackboneParam
deriving DecidableEq, Repr

/-- main_aux.py lines 165-168: `try: model.freeze_non_ode() except
AttributeError: print(...)`.  Returns the model after the call and whether the
fallback message was printed. -/
def tryFreezeNonOde (m : BackboneModel) : BackboneModel × Bool :=
  if m.hasFreezeNonOde then ({ m with params := freeze_non_ode m.params }, false)
  else (m, true)

/-! ## Configuration error paths (main_aux.py lines 40-51;
src/data_utils/prepare_dataset.py lines 10-15)

`prepare_dataset` raises `ValueError` for any dataset name other than
`retina_GA`.  The model is then built by `globals()[config.model](...)` inside
a bare `try`: an unrecognized name makes the `globals()` lookup raise, and the
`except` turns any failure into a fatal `ValueError`.  Both happen before the
epoch loop, so no optimizer step has run. -/

/-- The module-level names of main_aux.py (its imports and definitions): the
domain of the `globals()` lookup. -/
def mainModuleGlobals : List String :=
  ["argparse", "Tuple", "List", "plt", "np", "torch", "os", "yaml",
   "roc_auc_score", "prepare_dataset", "LinearWarmupCosineAnnealingLR", "tqdm",
   "AutoEncoder", "T_AutoEncoder", "ODEAutoEncoder", "ODEUNet", "AuxNet",
   "AttributeHashmap", "EarlyStopping", "log", "psnr", "ssim",
   "parse_settings", "seed_everything",
   "train", "test", "convert_variables", "numpy_variables", "plot_side_by_side"]

def buildModel (model_name : String) : Except PyExc Unit :=
  if mainModuleGlobals.contains model_name then Except.ok ()
  else Except.error (.valueError ("`config.model`: " ++ model_name ++ " not supported."))

def prepare_dataset (dataset_name : String) : Except PyExc Unit :=
  if dataset_name = "retina_GA" then Except.ok ()
  else Except.error (.valueError "Dataset not found. Check `dataset_name` in config yaml file.")

def trainStartup (dataset_name model_name : String) : Except PyExc Unit :=
  match prepare_dataset dataset_name with
  | .error e => .error e
  | .ok () =>
    match buildModel model_name with
    | .error e => .error e
    | .ok () => .ok ()

/-- The run as seen from outside: on a clean startup it performs
`stepsIfTrained` optimizer steps; a startup error propagates and no training
step ever happens. -/
def trainRunSteps (dataset_name model_name : String) (stepsIfTrained : Nat) :
    Except PyExc Nat :=
  match trainStartup dataset_name model_name with
  | .error e => .error e
  | .ok () => .ok stepsIfTrained

/-! ## AuxNet.forward (src/nn/aux_net.py lines 73-109)

After `assert x.shape[0] == 1`, the first statement is
`use_ode = t.item() != 0`, but `t` is not a parameter of `forward`, is never
assigned before this read, and is not a module-level name of aux_net.py, so
evaluating it raises `NameError`.  Python name resolution is embedded as a
lookup through the local then the module scope. -/

def auxForwardLocalNames : List String := ["self", "x"]

/-- The module-level names of nn/aux_net.py (its imports and the class). -/
def auxNetModuleGlobals : List String :=
  ["BaseNetwork", "ConvBlock", "UpConvBlock", "ResConvBlock", "ResUpConvBlock",
   "ODEfunc", "ODEBlock", "torch", "AuxNet"]

def pyLookup (localNames globalNames : List String) (v : String) : Except PyExc Unit :=
  if localNames.contains v || globalNames.contains v then Except.ok ()
  else Except.error (.nameError v)

def auxNetForward (batchDim : Nat) : Except PyExc Unit :=
  if batchDim = 1 then
    match pyLookup auxForwardLocalNames auxNetModuleGlobals "t" with
    | .error e => .error e
    | .ok () => .ok ()
  else Except.error .assertionError

/-- Modelled from the spec: `AuxNet.forward_proj` comes from `BaseNetwork`
(nn/base.py, not under src/); per the spec it maps one image to an embedding
vector and returns normally. -/
def auxNetForwardProj (x : List ℚ) : Except PyExc (List ℚ) := Except.ok x

/-! ## Helper lemmas -/

theorem runMainOpt_stepIdx_mem (freq : Nat) (upd : Int → Int → Int)
    (gRecon gPred : Nat → Int) (n i : Nat) :
    i ∈ (runMainOpt freq upd gRecon gPred n).stepIdx ↔ i < n ∧ i % freq = freq - 1 := by
  induction n with
  | zero => simp [runMainOpt]
  | succ n ih =>
    by_cases h : n % freq = freq - 1
    · simp only [runMainOpt, trainIterMain, if_pos h, List.mem_append, List.mem_singleton]
      constructor
      · rintro (hmem | rfl)
        · obtain ⟨h1, h2⟩ := ih.mp hmem
          exact ⟨Nat.lt_succ_of_lt h1, h2⟩
        · exact ⟨Nat.lt_succ_self _, h⟩
      · rintro ⟨h1, h2⟩
        rcases Nat.lt_succ_iff_lt_or_eq.mp h1 with h1 | rfl
        · exact Or.inl (ih.mpr ⟨h1, h2⟩)
        · exact Or.inr rfl
    · simp only [runMainOpt, trainIterMain, if_neg h]
      rw [ih]
      constructor
      · rintro ⟨h1, h2⟩
        exact ⟨Nat.lt_succ_of_lt h1, h2⟩
      · rintro ⟨h1, h2⟩
        rcases Nat.lt_succ_iff_lt_or_eq.mp h1 with h1 | rfl
        · exact ⟨h1, h2⟩
        · exact absurd h2 h

theorem runMainOpt_params_offboundary (freq : Nat) (upd : Int → Int → Int)
    (gRecon gPred : Nat → Int) (i : Nat) (h : i % freq ≠ freq - 1) :
    (runMainOpt freq upd gRecon gPred (i + 1)).params
      = (runMainOpt freq upd gRecon gPred i).params := by
  simp [runMainOpt, trainIterMain, if_neg h]

theorem boundary_separation (freq i j : Nat)
    (hi : i % freq = freq - 1) (hj : j % freq = freq - 1) (hij : i < j) :
    i + freq ≤ j := by
  have hmod : Nat.ModEq freq i j := by
    unfold Nat.ModEq
    rw [hi, hj]
  have hdvd : freq ∣ j - i := (Nat.modEq_iff_dvd' (Nat.le_of_lt hij)).mp hmod
  have hle : freq ≤ j - i := Nat.le_of_dvd (by omega) hdvd
  omega

theorem count_auxOptStep_sample (p b : Bool) :
    (sampleEvents false p b).count Ev.auxOptStep = 0 := by
  cases p <;> cases b <;> rfl

theorem count_schedStepAux_sample (s p b : Bool) :
    (sampleEvents s p b).count Ev.schedStepAux = 0 := by
  cases s <;> cases p <;> cases b <;> rfl

theorem count_flatMap_zero {α : Type} (f : α → List Ev) (a : Ev) (l : List α)
    (h : ∀ x ∈ l, (f x).count a = 0) :
    (l.flatMap f).count a = 0 := by
  induction l with
  | nil => rfl
  | cons x xs ih =>
    rw [List.flatMap_cons, List.count_append, h x (List.mem_cons_self x xs),
        ih (fun y hy => h y (List.mem_cons_of_mem x hy))]

theorem runSelect_saved_mem (s1 : Nat) (v : Nat → ℚ) (n e : Nat) :
    e ∈ (runSelect s1 v n).savedEpochs ↔
      e < n ∧ running_stage1 e s1 = false
        ∧ ltBest (v e) ((runSelect s1 v e).best_val_loss) = true := by
  induction n with
  | zero => simp [runSelect]
  | succ n ih =>
    have hstep : runSelect s1 v (n + 1) = epochSelect s1 v (runSelect s1 v n) n := rfl
    rw [hstep]
    unfold epochSelect
    by_cases h1 : running_stage1 n s1 = true
    · rw [if_pos h1, ih]
      constructor
      · rintro ⟨hlt, hs, hb⟩
        exact ⟨Nat.lt_succ_of_lt hlt, hs, hb⟩
      · rintro ⟨hlt, hs, hb⟩
        rcases Nat.lt_succ_iff_lt_or_eq.mp hlt with hlt | rfl
        · exact ⟨hlt, hs, hb⟩
        · rw [hs] at h1
          exact absurd h1 (by simp)
    · rw [if_neg h1]
      simp only [Bool.not_eq_true] at h1
      by_cases h2 : ltBest (v n) ((runSelect s1 v n).best_val_loss) = true
      · rw [if_pos h2]
        simp only [List.mem_append, List.mem_singleton]
        rw [ih]
        constructor
        · rintro (⟨hlt, hs, hb⟩ | rfl)
          · exact ⟨Nat.lt_succ_of_lt hlt, hs, hb⟩
          · exact ⟨Nat.lt_succ_self _, h1, h2⟩
        · rintro ⟨hlt, hs, hb⟩
          rcases Nat.lt_succ_iff_lt_or_eq.mp hlt with hlt | rfl
          · exact Or.inl ⟨hlt, hs, hb⟩
          · exact Or.inr rfl
      · rw [if_neg h2, ih]
        constructor
        · rintro ⟨hlt, hs, hb⟩
          exact ⟨Nat.lt_succ_of_lt hlt, hs, hb⟩
        · rintro ⟨hlt, hs, hb⟩
          rcases Nat.lt_succ_iff_lt_or_eq.mp hlt with hlt | rfl
          · exact ⟨hlt, hs, hb⟩
          · exact absurd hb h2

theorem bestLe_refl (a : Option ℚ) : bestLe a a := by
  cases a <;> simp [bestLe]

theorem runSelect_best_mono (s1 : Nat) (v : Nat → ℚ) (n : Nat) :
    bestLe ((runSelect s1 v (n + 1)).best_val_loss) ((runSelect s1 v n).best_val_loss) := by
  have hstep : runSelect s1 v (n + 1) = epochSelect s1 v (runSelect s1 v n) n := rfl
  rw [hstep]
  unfold epochSelect
  by_cases h1 : running_stage1 n s1 = true
  · rw [if_pos h1]
    exact bestLe_refl _
  · rw [if_neg h1]
    by_cases h2 : ltBest (v n) ((runSelect s1 v n).best_val_loss) = true
    · rw [if_pos h2]
      cases hb : (runSelect s1 v n).best_val_loss with
      | none => trivial
      | some b =>
        rw [hb] at h2
        simp only [ltBest, decide_eq_true_eq] at h2
        exact le_of_lt h2
    · rw [if_neg h2]
      exact bestLe_refl _

/-! ## The claims -/

/-- Claim C1: the training stage is a pure, stateless function of the epoch
index: for every `epoch_idx` in `[0, epochs_stage1)` the controller runs in
STAGE_1, for every `epoch_idx ≥ epochs_stage1` in STAGE_2, and
`running_stage1` is exactly the recomputed predicate `epoch_idx < epochs_stage1`
with no persisted state. -/
theorem stage_is_pure_function_of_epoch (e s : Nat) :
    (e < s → stageOf e s = TrainingStage.STAGE_1)
    ∧ (s ≤ e → stageOf e s = TrainingStage.STAGE_2)
    ∧ running_stage1 e s = decide (e < s) := by
  refine ⟨fun h => ?_, fun h => ?_, rfl⟩
  · simp [stageOf, running_stage1, h]
  · simp [stageOf, running_stage1, Nat.not_lt.mpr h]

/-- Claim C2: during a training epoch the main optimizer steps exactly at
sample indices with `i % backprop_freq = backprop_freq - 1` (and only then);
away from those boundaries the visible parameters are unchanged (gradients
only accumulate); and two boundary indices are never less than
`backprop_freq` apart. -/
theorem grad_accum_updates_only_at_boundaries
    (freq : Nat) (upd : Int → Int → Int) (gRecon gPred : Nat → Int) (n i j : Nat)
    (_hfreq : 0 < freq) :
    (i ∈ (runMainOpt freq upd gRecon gPred n).stepIdx ↔ i < n ∧ i % freq = freq - 1)
    ∧ (i % freq ≠ freq - 1 →
        (runMainOpt freq upd gRecon gPred (i + 1)).params
          = (runMainOpt freq upd gRecon gPred i).params)
    ∧ (i % freq = freq - 1 → j % freq = freq - 1 → i < j → i + freq ≤ j) :=
  ⟨runMainOpt_stepIdx_mem freq upd gRecon gPred n i,
   runMainOpt_params_offboundary freq upd gRecon gPred i,
   fun hi hj hij => boundary_separation freq i j hi hj hij⟩

theorem grad_accum_updates_only_at_boundaries_witness :
    (1 ∈ (runMainOpt 2 (fun p g => p + g) (fun _ => 1) (fun _ => 1) 4).stepIdx
        ↔ 1 < 4 ∧ 1 % 2 = 2 - 1)
    ∧ (1 % 2 ≠ 2 - 1 →
        (runMainOpt 2 (fun p g => p + g) (fun _ => 1) (fun _ => 1) 2).params
          = (runMainOpt 2 (fun p g => p + g) (fun _ => 1) (fun _ => 1) 1).params)
    ∧ (1 % 2 = 2 - 1 → 3 % 2 = 2 - 1 → 1 < 3 → 1 + 2 ≤ 3) :=
  grad_accum_updates_only_at_boundaries 2 (fun p g => p + g) (fun _ => 1) (fun _ => 1) 4 1 3
    (by decide)

/-- Claim C3: the per-sample prediction loss depends only on the stage: in
STAGE_1 it is the sum of per-image MSEs, in STAGE_2 it is
`(1 - sim_x0) + (1 - sim_xT)` over auxiliary-projection cosine similarities;
the auxiliary network is frozen at the moment `loss_pred` is backpropagated,
the STAGE_2 loss scores the live (non-detached) predictions, and a frozen
scorer on a non-detached input sends gradient to the input image but not to
the auxiliary parameters. -/
theorem pred_loss_stage_composition (m0 mT s0 sT : ℚ) (st p b : Bool) :
    loss_pred true m0 mT s0 sT = m0 + mT
    ∧ loss_pred false m0 mT s0 sT = (1 - s0) + (1 - sT)
    ∧ auxFrozen ((sampleEvents st p b).takeWhile (fun e => e != Ev.backwardPred)) false = true
    ∧ stage2PredPairs.all (fun pr => isBackbonePred pr.2 && !isDetachedRef pr.2) = true
    ∧ auxScoreGrad false false = { touchesAuxParams := false, reachesInputImage := true } := by
  refine ⟨rfl, rfl, ?_, rfl, rfl⟩
  cases st <;> cases p <;> cases b <;> rfl

/-- Claim C4: once STAGE_2 begins (`epochs_stage1 ≤ epoch_idx`) an epoch
contains no auxiliary optimizer step at all, while in any stage the auxiliary
learning-rate scheduler steps exactly once per epoch. -/
theorem aux_optimizer_suspended_in_stage2
    (e s n plotFreq freq : Nat) (st : Bool) (h : s ≤ e) :
    (epochEvents (running_stage1 e s) n plotFreq freq).count Ev.auxOptStep = 0
    ∧ (epochEvents st n plotFreq freq).count Ev.schedStepAux = 1 := by
  have hstage : running_stage1 e s = false := by
    simp only [running_stage1, decide_eq_false_iff_not]
    omega
  constructor
  · rw [hstage]
    unfold epochEvents
    rw [List.count_append,
        count_flatMap_zero _ _ _ (fun i _ => count_auxOptStep_sample _ _)]
    rfl
  · unfold epochEvents
    rw [List.count_append,
        count_flatMap_zero _ _ _ (fun i _ => count_schedStepAux_sample st _ _)]
    rfl

theorem aux_optimizer_suspended_in_stage2_witness :
    (epochEvents (running_stage1 2 1) 3 2 2).count Ev.auxOptStep = 0
    ∧ (epochEvents true 3 2 2).count Ev.schedStepAux = 1 :=
  aux_optimizer_suspended_in_stage2 2 1 3 2 2 true (by decide)

/-- Claim C5: an epoch writes checkpoint weights iff it is a STAGE_2 epoch
whose validation loss is strictly below the best seen so far; no write ever
happens in STAGE_1; and `best_val_loss` is monotonically non-increasing. -/
theorem checkpoint_only_stage2_and_improving (s1 : Nat) (v : Nat → ℚ) (n e : Nat) :
    (e ∈ (runSelect s1 v n).savedEpochs ↔
       e < n ∧ running_stage1 e s1 = false
         ∧ ltBest (v e) ((runSelect s1 v e).best_val_loss) = true)
    ∧ (running_stage1 e s1 = true → e ∉ (runSelect s1 v n).savedEpochs)
    ∧ bestLe ((runSelect s1 v (n + 1)).best_val_loss) ((runSelect s1 v n).best_val_loss) := by
  refine ⟨runSelect_saved_mem s1 v n e, fun hst hmem => ?_, runSelect_best_mono s1 v n⟩
  obtain ⟨-, hs, -⟩ := (runSelect_saved_mem s1 v n e).mp hmem
  rw [hst] at hs
  exact absurd hs (by simp)

/-- Claim C6: the auxiliary loss is the sum of the two hinge terms
`relu(dist_pos - dist_neg + margin)` and `relu(dist_pos - dist_syn + margin)`
with `margin = 1`, distances `1 - similarity`, `dist_neg` averaging the two
negative-pair similarities and `dist_syn` averaging the true-vs-detached-
prediction similarities; each hinge term is non-negative for arbitrary
similarities. -/
theorem aux_loss_is_sum_of_nonneg_hinges (sp sn1 sn2 sx0 sxT : ℚ) :
    loss_aux sp sn1 sn2 sx0 sxT
        = reluQ ((1 - sp) - 1/2 * ((1 - sn1) + (1 - sn2)) + margin)
          + reluQ ((1 - sp) - 1/2 * ((1 - sx0) + (1 - sxT)) + margin)
    ∧ margin = 1
    ∧ 0 ≤ loss_aux_neg sp sn1 sn2
    ∧ 0 ≤ loss_aux_syn sp sx0 sxT
    ∧ simSynPairs.all (fun pr => isDetachedRef pr.2) = true := by
  refine ⟨rfl, by norm_num [margin], le_max_right _ _, le_max_right _ _, rfl⟩

/-- Claim C7: the data contract is enforced fatally per sample: each of the
five batch tensors must have exactly two elements along dimension 1 and
`t_end - t_start` must be strictly positive; the checks succeed exactly on
such samples, and any violation raises `AssertionError` (aborting the run). -/
theorem data_contract_assertions_fatal (s : RawSample) :
    (trainSampleAsserts s = Except.ok () ↔
      s.imagesDim1 = 2 ∧ s.timestampsDim1 = 2 ∧ s.posPairDim1 = 2
        ∧ s.negPair1Dim1 = 2 ∧ s.negPair2Dim1 = 2 ∧ 0 < s.t_end - s.t_start)
    ∧ (trainSampleAsserts s = Except.ok ()
        ∨ trainSampleAsserts s = Except.error PyExc.assertionError) := by
  unfold trainSampleAsserts
  split_ifs with h1 h2 h3 h4 h5 h6 <;> simp_all

/-- Claim C8: before the prediction loss, the controller freezes all backbone
parameters except the ODE subset; on a variant providing `freeze_non_ode`
(starting fully unfrozen) exactly the non-ODE parameters lose
`requires_grad`; on a variant lacking it the call is a logged no-op — the
model is returned unchanged (still fully unfrozen) and only the fallback
message is printed. -/
theorem freeze_non_ode_selective_or_noop (m : BackboneModel)
    (hunfrozen : m.params.all (fun p => p.requires_grad) = true) :
    (m.hasFreezeNonOde = true →
       (tryFreezeNonOde m).1.params.all (fun p => p.requires_grad == p.isODE) = true
       ∧ (tryFreezeNonOde m).2 = false)
    ∧ (m.hasFreezeNonOde = false →
       (tryFreezeNonOde m).1 = m ∧ (tryFreezeNonOde m).2 = true) := by
  constructor
  · intro h
    refine ⟨?_, by simp [tryFreezeNonOde, h]⟩
    simp only [tryFreezeNonOde, h, if_true]
    rw [List.all_eq_true]
    intro q hq
    obtain ⟨pp, hp, rfl⟩ := List.mem_map.mp hq
    have hpg : pp.requires_grad = true := by
      rw [List.all_eq_true] at hunfrozen
      exact hunfrozen pp hp
    by_cases hode : pp.isODE = true
    · simp [hode, hpg]
    · simp only [Bool.not_eq_true] at hode
      simp [hode]
  · intro h
    simp [tryFreezeNonOde, h]

theorem freeze_non_ode_selective_or_noop_witness :
    ((tryFreezeNonOde ⟨true, [⟨true, true⟩, ⟨false, true⟩]⟩).1.params.all
        (fun p => p.requires_grad == p.isODE) = true
      ∧ (tryFreezeNonOde ⟨true, [⟨true, true⟩, ⟨false, true⟩]⟩).2 = false)
    ∧ ((tryFreezeNonOde ⟨false, [⟨true, true⟩]⟩).1 = ⟨false, [⟨true, true⟩]⟩
      ∧ (tryFreezeNonOde ⟨false, [⟨true, true⟩]⟩).2 = true) :=
  ⟨(freeze_non_ode_selective_or_noop ⟨true, [⟨true, true⟩, ⟨false, true⟩]⟩ (by decide)).1 rfl,
   (freeze_non_ode_selective_or_noop ⟨false, [⟨true, true⟩]⟩ (by decide)).2 rfl⟩

/-- Claim C9: an unrecognized model name (and likewise an unrecognized dataset
name) makes startup return the fatal `ValueError` raised before the epoch
loop, so the run never reaches a training step. -/
theorem unknown_config_fails_before_training (d m : String) (steps : Nat) :
    (mainModuleGlobals.contains m = false → ∀ k, trainRunSteps d m steps ≠ Except.ok k)
    ∧ (d ≠ "retina_GA" →
        trainRunSteps d m steps
          = Except.error
              (PyExc.valueError "Dataset not found. Check `dataset_name` in config yaml file."))
    ∧ (d = "retina_GA" → mainModuleGlobals.contains m = false →
        trainRunSteps d m steps
          = Except.error (PyExc.valueError ("`config.model`: " ++ m ++ " not supported."))) := by
  refine ⟨?_, ?_, ?_⟩
  · intro hm k
    have hm2 : m ∉ mainModuleGlobals := by simpa using hm
    unfold trainRunSteps trainStartup prepare_dataset buildModel
    by_cases hd : d = "retina_GA"
    · simp [hd, hm2]
    · simp [hd]
  · intro hd
    unfold trainRunSteps trainStartup prepare_dataset
    simp [hd]
  · intro hd hm
    have hm2 : m ∉ mainModuleGlobals := by simpa using hm
    unfold trainRunSteps trainStartup prepare_dataset buildModel
    simp [hd, hm2]

/-- Claim C10: calling `AuxNet.forward` on any (batch-1) input raises an
unhandled `NameError`, because its body reads the never-bound name `t`
(neither a parameter nor a local nor a module global); the network is usable
only through `forward_proj`, which returns normally. -/
theorem auxnet_forward_always_name_error :
    auxNetForward 1 = Except.error (PyExc.nameError "t")
    ∧ pyLookup auxForwardLocalNames auxNetModuleGlobals "t"
        = Except.error (PyExc.nameError "t")
    ∧ ∀ x : List ℚ, auxNetForwardProj x = Except.ok x := by
  refine ⟨rfl, rfl, fun x => rfl⟩

end MedImgProg
